import Mathlib

/-!
Shallow embedding of the credential-lifecycle and task-polling layer of the
repository (agent-tools): `YouTubeUploadTool` (getCredentials, refreshToken,
doOAuthFlow, execute), `ImageGeneratorTool` (execute, pollForImage) and
`ThumbnailGeneratorTool` (the inline polling loop of its execute).

JavaScript values that matter to the control flow are modelled explicitly:
an absent object property is `none`, string truthiness is "present and
nonempty", number truthiness is "present, not NaN and nonzero".  `Date.now()`
is a parameter `now`; each HTTP interaction is a parameter describing the
response the environment would give, and side effects (network requests,
token-file writes, sleeps, console warnings) are returned as explicit data.
-/

/-- Truthiness of a possibly-absent JavaScript string: `undefined` and the
empty string are falsy, every other string is truthy. -/
def truthyStr : Option String → Bool
  | none => false
  | some s => !(decide (s = ""))

/-- A JavaScript number that may be `NaN` (e.g. `undefined * 1000`). -/
inductive JNum where
  | nan : JNum
  | int (n : Int) : JNum
deriving DecidableEq, Repr

/-- Truthiness of a possibly-absent JavaScript number: `undefined`, `NaN`
and `0` are falsy. -/
def truthyJNum : Option JNum → Bool
  | none => false
  | some JNum.nan => false
  | some (JNum.int n) => !(decide (n = 0))

/-- `now < e` in JavaScript: any comparison with `undefined` or `NaN` is
false. -/
def jsLtNum (now : Int) : Option JNum → Bool
  | some (JNum.int e) => decide (now < e)
  | _ => false

/-- `Date.now() + (expires_in * 1000)` where `expires_in` may be absent
(absent propagates to `NaN`). -/
def jsExpiry (now : Int) : Option Int → JNum
  | some e => JNum.int (now + e * 1000)
  | none => JNum.nan

/-- JavaScript `a || b` on possibly-absent strings (empty string is falsy). -/
def jsOrStr (a b : Option String) : Option String :=
  match a with
  | some s => if s = "" then b else some s
  | none => b

/-- `data?.data?.status || data?.status || 'unknown'`. -/
def jsStatus (a b : Option String) : String :=
  (jsOrStr a (jsOrStr b (some ("unknown")))).getD ("unknown")

/-- The parsed on-disk token file `youtube-token.json`: fields
`access_token`, `refresh_token` and `expiry`, each possibly absent. -/
structure TokenData where
  access_token : Option String
  refresh_token : Option String
  expiry : Option JNum
deriving DecidableEq, Repr

/-- The token endpoint's response to a refresh request: HTTP ok flag and
the parsed JSON body's `access_token` and `expires_in` fields. -/
structure RefreshResp where
  ok : Bool
  access_token : Option String
  expires_in : Option Int
deriving DecidableEq, Repr

namespace YouTubeUploadTool

/-- `refreshToken(refreshToken)`: one POST to the token endpoint; throws
`Token refresh failed` when the HTTP status is not ok, otherwise builds the
new credential from the body's `access_token` and `expires_in`, keeping the
input refresh token.  The body is never checked for a present access token. -/
def refreshToken (now : Int) (resp : RefreshResp) (rt : String) : Except String TokenData :=
  if resp.ok = false then Except.error ("Token refresh failed")
  else Except.ok ⟨resp.access_token, some rt, some (jsExpiry now resp.expires_in)⟩

/-- `process.env.OAUTH_REDIRECT_URL ? `${...}/oauth2callback` :
'http://localhost:3001/oauth2callback'`. -/
def oauthRedirectUri (envVar : Option String) : String :=
  match envVar with
  | some base =>
      if base = "" then ("http://localhost:3001/oauth2callback")
      else base ++ ("/oauth2callback")
  | none => ("http://localhost:3001/oauth2callback")

/-- `s.startsWith pre`, on the underlying character lists. -/
def strStartsWith (s pre : String) : Bool :=
  pre.toList.isPrefixOf s.toList

/-- Characters strictly before the first occurrence of `c`. -/
def takeUntil (c : Char) : List Char → List Char
  | [] => []
  | d :: rest => if d = c then [] else d :: takeUntil c rest

/-- Characters strictly after the first occurrence of `c` (empty when `c`
does not occur). -/
def dropUntil (c : Char) : List Char → List Char
  | [] => []
  | d :: rest => if d = c then rest else dropUntil c rest

/-- A nonempty all-digit character list read as a decimal number. -/
def digitsToNat (l : List Char) : Option Nat :=
  if l = [] then none
  else if l.all (fun c => c.isDigit) then
    some (l.foldl (fun acc c => acc * 10 + (c.toNat - 48)) 0)
  else none

/-- The port written in a `http://host:port/...` URI, when one is there. -/
def uriPort (uri : String) : Option Nat :=
  let cs0 := uri.toList
  let cs :=
    if strStartsWith uri ("http://") then cs0.drop 7
    else if strStartsWith uri ("https://") then cs0.drop 8
    else cs0
  digitsToNat (dropUntil (':') (takeUntil ('/') cs))

/-- Externally visible actions of `doOAuthFlow`, in program order: the
authorization URL (which embeds the redirect URI) is printed, then the
callback server is started.  The source prints at lines 89-90 and only then
runs the promise executor whose `server.listen(8080)` is at line 140. -/
inductive FlowAction where
  | printUrl (redirectUri : String) : FlowAction
  | listen (port : Nat) : FlowAction
deriving DecidableEq, Repr

/-- The ordered action trace of `doOAuthFlow` up to the point where it
starts waiting: print the authorization URL, then listen on port 8080. -/
def doOAuthFlowActions (envVar : Option String) : List FlowAction :=
  [FlowAction.printUrl (oauthRedirectUri envVar), FlowAction.listen 8080]

/-- The parsed JSON body of the authorization-code exchange. -/
structure TokenJson where
  error : Option String
  access_token : Option String
  refresh_token : Option String
  expires_in : Option Int

/-- The one event that settles a `doOAuthFlow` invocation: either a request
to `/oauth2callback` arrives (carrying the `code` query parameter, if any,
and the outcome of the code-exchange fetch) or the 300 s deadline fires. -/
inductive FlowEvent where
  | callback (code : Option String) (exchange : Except String TokenJson) : FlowEvent
  | deadline : FlowEvent

/-- The `setTimeout` delay guarding `doOAuthFlow` (source line 141). -/
def OAUTH_DEADLINE_MS : Nat := 300000

/-- What a settled `doOAuthFlow` left behind: the promise's result, whether
`server.close()` ran, the credential written by `saveToken` (if any), and
how many token-endpoint requests were made. -/
structure FlowOutcome where
  result : Except String TokenData
  listenerClosed : Bool
  saved : Option TokenData
  networkCalls : Nat

/-- `doOAuthFlow` settled by the event `ev`:
  * deadline: close the server, reject with `Timeout`;
  * callback without a truthy `code`: respond, close, reject;
  * exchange rejects or its body carries a truthy `error`: respond, close,
    reject;
  * otherwise build the credential, `saveToken` it, respond, close, resolve. -/
def doOAuthFlow (now : Int) (ev : FlowEvent) : FlowOutcome :=
  match ev with
  | FlowEvent.deadline => ⟨Except.error ("Timeout"), true, none, 0⟩
  | FlowEvent.callback code exchange =>
    if truthyStr code = false then
      ⟨Except.error ("No authorization code"), true, none, 0⟩
    else
      match exchange with
      | Except.error m => ⟨Except.error m, true, none, 1⟩
      | Except.ok tokens =>
        if truthyStr tokens.error then
          ⟨Except.error (tokens.error.getD ("")), true, none, 1⟩
        else
          let creds : TokenData :=
            ⟨tokens.access_token, tokens.refresh_token, some (jsExpiry now tokens.expires_in)⟩
          ⟨Except.ok creds, true, some creds, 1⟩

/-- Everything `getCredentials` can observe: the clock, the token file (or
its absence), the response the token endpoint would give a refresh, and the
event that would settle an interactive flow. -/
structure CredEnv where
  now : Int
  tokenFile : Option TokenData
  refreshResp : RefreshResp
  oauthEvent : FlowEvent

/-- Result of `getCredentials` together with its side effects: network
requests made and the sequence of token-file writes. -/
structure CredOutcome where
  result : Except String TokenData
  networkCalls : Nat
  writes : List TokenData

/-- The `doOAuthFlow` leg of `getCredentials` as a `CredOutcome`. -/
def oauthOutcome (env : CredEnv) : CredOutcome :=
  let o := doOAuthFlow env.now env.oauthEvent
  ⟨o.result, o.networkCalls, o.saved.toList⟩

/-- `getCredentials()`: return the stored token as-is when its
`access_token` and `expiry` are truthy and `Date.now() < expiry`; otherwise,
when a truthy `refresh_token` exists, try `refreshToken` (persisting and
returning the result on success, falling back to the interactive flow on
failure); otherwise run `doOAuthFlow`. -/
def getCredentials (env : CredEnv) : CredOutcome :=
  match env.tokenFile with
  | none => oauthOutcome env
  | some td =>
    if truthyStr td.access_token && truthyJNum td.expiry && jsLtNum env.now td.expiry then
      ⟨Except.ok td, 0, []⟩
    else if truthyStr td.refresh_token then
      match refreshToken env.now env.refreshResp (td.refresh_token.getD ("")) with
      | Except.ok refreshed => ⟨Except.ok refreshed, 1, [refreshed]⟩
      | Except.error _ =>
        let o := oauthOutcome env
        ⟨o.result, o.networkCalls + 1, o.writes⟩
    else oauthOutcome env

/-- Input schema of `upload_youtube_video`. -/
structure UploadInput where
  videoFile : String
  title : String
  description : Option String
  thumbnailFile : String
  privacyStatus : Option String

/-- What `execute` can observe beyond its input: whether the local files
exist, the credential environment, and the three HTTP responses (primary
upload, thumbnail download when the thumbnail is a URL, thumbnail set). -/
structure UploadEnv where
  videoExists : Bool
  thumbExists : Bool
  credEnv : CredEnv
  uploadOk : Bool
  uploadStatus : Nat
  uploadErrText : String
  uploadId : String
  uploadPrivacy : String
  thumbDlOk : Bool
  thumbDlStatus : Nat
  thumbSetOk : Bool
  thumbSetStatus : Nat

/-- The object `execute` returns.  The source's object literal has keys
`videoId`, `url` and `privacyStatus` only; `warning` models reading any
further property of that object, which in JavaScript yields `undefined`
(`none`) — the literal never sets one. -/
structure UploadResult where
  videoId : String
  url : String
  privacyStatus : String
  warning : Option String
deriving DecidableEq, Repr

/-- Console output of the thumbnail-set step of `execute` (the only branch
of the function whose outcome is reported exclusively through logging). -/
inductive UploadLog where
  | thumbFailWarning (status : Nat) : UploadLog
  | thumbSuccess : UploadLog
deriving DecidableEq, Repr

/-- `execute(input)` of `upload_youtube_video`: validate the local files,
obtain credentials, perform the multipart video upload (throwing on a
non-ok status), buffer the thumbnail (a URL download failure throws), then
issue the thumbnail-set request — whose failure is only logged: both
branches return the same `{videoId, url, privacyStatus}` object. -/
def execute (input : UploadInput) (env : UploadEnv) :
    Except String UploadResult × List UploadLog :=
  if env.videoExists = false then
    (Except.error (("Video file not found: ") ++ input.videoFile), [])
  else
    let isUrl := strStartsWith input.thumbnailFile ("http://")
      || strStartsWith input.thumbnailFile ("https://")
    if isUrl = false && env.thumbExists = false then
      (Except.error (("Thumbnail file not found: ") ++ input.thumbnailFile), [])
    else
      match (getCredentials env.credEnv).result with
      | Except.error m => (Except.error m, [])
      | Except.ok _creds =>
        if env.uploadOk = false then
          (Except.error (("Upload failed: ") ++ toString env.uploadStatus
            ++ (" - ") ++ env.uploadErrText), [])
        else
          let videoId := env.uploadId
          if isUrl && !env.thumbDlOk then
            (Except.error (("Failed to download thumbnail: ")
              ++ toString env.thumbDlStatus), [])
          else
            let logs :=
              if env.thumbSetOk = false then [UploadLog.thumbFailWarning env.thumbSetStatus]
              else [UploadLog.thumbSuccess]
            (Except.ok ⟨videoId, ("https://www.youtube.com/watch?v=") ++ videoId,
              env.uploadPrivacy, none⟩, logs)

end YouTubeUploadTool

/-! ## Polling (ImageGeneratorTool.pollForImage and the inline loop of
ThumbnailGeneratorTool.execute)

Both loops run `for (attempt = 0; attempt < maxAttempts; attempt++)`,
sleeping `pollInterval` (3000 ms) and then issuing one status GET per
iteration.  The environment is a function from the attempt index to what
that request would meet. -/

/-- `pollInterval` (3000 ms) of both polling loops. -/
def pollIntervalMs : Nat := 3000

/-- One externally visible polling event: a `setTimeout` sleep of `ms`
milliseconds, or one status GET request. -/
inductive PollEv where
  | sleep (ms : Nat) : PollEv
  | request : PollEv
deriving DecidableEq, Repr

/-- Number of status requests in a trace. -/
def countRequests : List PollEv → Nat
  | [] => 0
  | PollEv.request :: rest => countRequests rest + 1
  | _ :: rest => countRequests rest

/-- The trace is a sequence of (sleep `pollIntervalMs`, request) pairs: in
particular every request — the first included — is immediately preceded by
a sleep of the polling interval. -/
def sleepThenRequest : List PollEv → Bool
  | [] => true
  | PollEv.sleep ms :: PollEv.request :: rest =>
      decide (ms = pollIntervalMs) && sleepThenRequest rest
  | _ => false

/-- What one loop iteration decided: settle the whole poll with `r`, or go
on to the next attempt. -/
inductive StepOut (α : Type) where
  | done (r : Except String α) : StepOut α
  | next : StepOut α

/-- The shared loop shape: while attempts remain, sleep, issue the
request, and let `step` classify the iteration; exhausting the budget
yields the timeout error.  Returns the event trace and the result. -/
def pollAttemptsLoop {α : Type} (step : Nat → StepOut α) (timeoutMsg : String) :
    Nat → Nat → List PollEv × Except String α
  | 0, _ => ([], Except.error timeoutMsg)
  | fuel + 1, i =>
    match step i with
    | StepOut.done r => ([PollEv.sleep pollIntervalMs, PollEv.request], r)
    | StepOut.next =>
      let rest := pollAttemptsLoop step timeoutMsg fuel (i + 1)
      (PollEv.sleep pollIntervalMs :: PollEv.request :: rest.1, rest.2)

/-- `pat` occurs as a contiguous substring (JavaScript
`msg.includes(pat)`), on character lists. -/
def listHasInfix (p : List Char) : List Char → Bool
  | [] => p.isEmpty
  | c :: rest => p.isPrefixOf (c :: rest) || listHasInfix p rest

/-- JavaScript `s.includes(pat)`. -/
def strContainsSub (s pat : String) : Bool :=
  listHasInfix pat.toList s.toList

namespace ImageGeneratorTool

/-- The parsed JSON body of one status response, with every key path the
source probes: `data.status`/`status`, `data.generated`/`generated`,
`data.images[0].url`/`images[0].url`, `data.image`/`image`, plus
`JSON.stringify(data)` for error payloads. -/
structure PollData where
  dataStatus : Option String
  topStatus : Option String
  dataGenerated : Option (List String)
  topGenerated : Option (List String)
  dataImagesUrl : Option String
  topImagesUrl : Option String
  dataImage : Option String
  topImage : Option String
  raw : String

/-- What one status GET met: the fetch rejected, or a response arrived
with its ok flag and parsed body. -/
inductive PollAttempt where
  | fetchError (msg : String) : PollAttempt
  | response (ok : Bool) (data : PollData) : PollAttempt

/-- `data?.data?.status || data?.status || 'unknown'`. -/
def statusOf (d : PollData) : String := jsStatus d.dataStatus d.topStatus

/-- The multi-shape result extraction: `generated[0]` when
`data?.data?.generated || data?.generated` is a nonempty array, otherwise
the `images[0].url` / `image` fallbacks (`||`-chained, so empty strings
fall through). -/
def extractImageUrl (d : PollData) : Option String :=
  let fallback := jsOrStr d.dataImagesUrl
    (jsOrStr d.topImagesUrl (jsOrStr d.dataImage d.topImage))
  match d.dataGenerated <|> d.topGenerated with
  | some l => if 0 < l.length then l.head? else fallback
  | none => fallback

/-- The catch filter of `pollForImage`: an error whose message includes
`Task failed` or `no image found` is rethrown; anything else is logged and
the loop continues. -/
def fatalPollError (msg : String) : Bool :=
  strContainsSub msg ("Task failed") || strContainsSub msg ("no image found")

/-- One iteration of `pollForImage` past the sleep: non-ok statuses and
non-fatal errors continue; a completed status returns the extracted URL
when truthy and otherwise throws the no-image error; a failed status
throws the task-failed error; both throws survive the catch filter. -/
def pollStep (a : PollAttempt) : StepOut String :=
  match a with
  | PollAttempt.fetchError msg =>
    if fatalPollError msg then StepOut.done (Except.error msg) else StepOut.next
  | PollAttempt.response ok d =>
    if ok = false then StepOut.next
    else
      let status := statusOf d
      if status = "COMPLETED" ∨ status = "SUCCESS" then
        let u := extractImageUrl d
        if truthyStr u then StepOut.done (Except.ok (u.getD ("")))
        else
          let m := ("Task completed but no image found. Response: ") ++ d.raw
          if fatalPollError m then StepOut.done (Except.error m) else StepOut.next
      else if status = "FAILED" ∨ status = "ERROR" then
        let m := ("Task failed: ") ++ d.raw
        if fatalPollError m then StepOut.done (Except.error m) else StepOut.next
      else StepOut.next

/-- The timeout error exhausting the budget raises. -/
def timeoutMsg (maxAttempts : Nat) : String :=
  ("Timeout waiting for image generation after ")
    ++ toString (maxAttempts * pollIntervalMs / 1000) ++ (" seconds")

/-- `pollForImage(apiKey, taskId, maxAttempts)`: the api key and task id
only address the requests, so the environment is indexed by attempt. -/
def pollForImage (env : Nat → PollAttempt) (maxAttempts : Nat) :
    List PollEv × Except String String :=
  pollAttemptsLoop (fun i => pollStep (env i)) (timeoutMsg maxAttempts) maxAttempts 0

end ImageGeneratorTool

namespace ThumbnailGeneratorTool

/-- The parsed JSON body of one status response of the thumbnail poller:
it probes `data.status`/`status` and `data.generated`/`generated` only. -/
structure ThumbData where
  dataStatus : Option String
  topStatus : Option String
  dataGenerated : Option (List String)
  topGenerated : Option (List String)
  raw : String

/-- What one status GET met. -/
inductive ThumbAttempt where
  | fetchError (msg : String) : ThumbAttempt
  | response (ok : Bool) (data : ThumbData) : ThumbAttempt

/-- `statusResult.data?.status || statusResult.status || 'unknown'`. -/
def statusOf (d : ThumbData) : String := jsStatus d.dataStatus d.topStatus

/-- `generated[0]` when `data?.generated || generated` is a nonempty
array; the thumbnail loop probes no other shape. -/
def extractGenerated (d : ThumbData) : Option String :=
  match d.dataGenerated <|> d.topGenerated with
  | some (u :: _) => some u
  | _ => none

/-- The tool's success payload (`imageUrl`, `success`, `message`). -/
structure GenResult where
  imageUrl : String
  success : Bool
  message : String
deriving DecidableEq, Repr

/-- One iteration of the thumbnail loop past the sleep.  This loop has no
inner catch: a rejected status fetch and both terminal throws propagate to
the surrounding try, ending the polling at once. -/
def thumbStep (a : ThumbAttempt) : StepOut GenResult :=
  match a with
  | ThumbAttempt.fetchError msg => StepOut.done (Except.error msg)
  | ThumbAttempt.response ok d =>
    if ok = false then StepOut.next
    else
      let status := statusOf d
      if status = "COMPLETED" ∨ status = "SUCCESS" then
        match extractGenerated d with
        | some u =>
          StepOut.done (Except.ok
            ⟨u, true, ("Thumbnail generated successfully (1280x720 default size)")⟩)
        | none =>
          StepOut.done (Except.error
            (("Task completed but no image found. Response: ") ++ d.raw))
      else if status = "FAILED" ∨ status = "ERROR" then
        StepOut.done (Except.error (("Task failed: ") ++ d.raw))
      else StepOut.next

/-- The polling loop inside `execute` (maxAttempts 20, interval 3000 ms in
the source; the budget is kept a parameter for the budget claims). -/
def pollLoop (env : Nat → ThumbAttempt) (maxAttempts : Nat) :
    List PollEv × Except String GenResult :=
  pollAttemptsLoop (fun i => thumbStep (env i))
    (ImageGeneratorTool.timeoutMsg maxAttempts) maxAttempts 0

end ThumbnailGeneratorTool

namespace ImageGeneratorTool

/-- The object `execute` of `generate_image` returns (`imageUrl`,
`success`, `message`). -/
structure ExecResult where
  imageUrl : String
  success : Bool
  message : String
deriving DecidableEq, Repr

/-- What `execute` can observe: the `FREEPIK_API_KEY` environment variable,
the submission response (ok flag, status, error text, and the body's
`data.task_id` / `task_id` fields) and the polling environment. -/
structure GenEnv where
  apiKey : Option String
  submitOk : Bool
  submitStatus : Nat
  submitText : String
  dataTaskId : Option String
  topTaskId : Option String
  pollEnv : Nat → PollAttempt

/-- The body of the `try` block of `execute`: throw on a non-ok submission
status, throw when `data?.data?.task_id || data?.task_id` is not truthy,
then run `pollForImage` (maxAttempts defaults to 20) and wrap its URL. -/
def tryBody (env : GenEnv) : Except String ExecResult :=
  if env.submitOk = false then
    Except.error (("Freepik API error: ") ++ toString env.submitStatus
      ++ (" - ") ++ env.submitText)
  else
    let taskId := jsOrStr env.dataTaskId env.topTaskId
    if truthyStr taskId = false then
      Except.error ("No task ID returned from API")
    else
      match (pollForImage env.pollEnv 20).2 with
      | Except.error m => Except.error m
      | Except.ok u => Except.ok ⟨u, true, ("Image generated successfully.")⟩

/-- `execute(input)` of `generate_image`: the missing-API-key throw sits
before the `try`, so it propagates; every error raised inside the `try` is
caught and converted to `{imageUrl: "", success: false, message: "Failed: "
+ message}`. -/
def execute (env : GenEnv) : Except String ExecResult :=
  if truthyStr env.apiKey = false then
    Except.error ("FREEPIK_API_KEY not set in environment variables")
  else
    match tryBody env with
    | Except.ok r => Except.ok r
    | Except.error m => Except.ok ⟨(""), false, ("Failed: ") ++ m⟩

end ImageGeneratorTool

/-! ## Helper lemmas -/

theorem isPrefixOf_append_right (p l m : List Char) (h : p.isPrefixOf l = true) :
    p.isPrefixOf (l ++ m) = true := by
  induction p generalizing l with
  | nil => cases (l ++ m) <;> rfl
  | cons c p ih =>
    cases l with
    | nil => simp only [List.isPrefixOf, Bool.false_eq_true] at h
    | cons d l2 =>
      simp only [List.cons_append, List.isPrefixOf, Bool.and_eq_true] at h ⊢
      exact ⟨h.1, ih l2 h.2⟩

theorem listHasInfix_nil_pat (l : List Char) : listHasInfix [] l = true := by
  cases l with
  | nil => rfl
  | cons c rest => simp [listHasInfix, List.isPrefixOf]

theorem listHasInfix_append_right (p a b : List Char) (h : listHasInfix p a = true) :
    listHasInfix p (a ++ b) = true := by
  induction a with
  | nil =>
    have hp : p = [] := by
      cases p with
      | nil => rfl
      | cons c q => simp [listHasInfix, List.isEmpty] at h
    subst hp
    exact listHasInfix_nil_pat b
  | cons c rest ih =>
    simp only [listHasInfix, Bool.or_eq_true] at h
    simp only [List.cons_append, listHasInfix, Bool.or_eq_true]
    rcases h with h | h
    · exact Or.inl (isPrefixOf_append_right _ _ _ h)
    · exact Or.inr (ih h)

theorem toList_append (a b : String) : (a ++ b).toList = a.toList ++ b.toList := rfl

theorem strContainsSub_of_left (a b pat : String) (h : strContainsSub a pat = true) :
    strContainsSub (a ++ b) pat = true := by
  unfold strContainsSub at h ⊢
  rw [toList_append]
  exact listHasInfix_append_right _ _ _ h

theorem fatal_taskFailed (raw : String) :
    ImageGeneratorTool.fatalPollError (("Task failed: ") ++ raw) = true := by
  have h : strContainsSub (("Task failed: ") ++ raw) ("Task failed") = true :=
    strContainsSub_of_left ("Task failed: ") raw ("Task failed") (by decide)
  simp [ImageGeneratorTool.fatalPollError, h]

theorem fatal_noImageFound (raw : String) :
    ImageGeneratorTool.fatalPollError
      (("Task completed but no image found. Response: ") ++ raw) = true := by
  have h : strContainsSub (("Task completed but no image found. Response: ") ++ raw)
      ("no image found") = true :=
    strContainsSub_of_left ("Task completed but no image found. Response: ")
      raw ("no image found") (by decide)
  simp [ImageGeneratorTool.fatalPollError, h]

theorem pollAttemptsLoop_budget {α : Type} (step : Nat → StepOut α) (msg : String) :
    ∀ fuel i, countRequests (pollAttemptsLoop step msg fuel i).1 ≤ fuel
      ∧ sleepThenRequest (pollAttemptsLoop step msg fuel i).1 = true := by
  intro fuel
  induction fuel with
  | zero => intro i; simp [pollAttemptsLoop, countRequests, sleepThenRequest]
  | succ n ih =>
    intro i
    simp only [pollAttemptsLoop]
    cases step i with
    | done r => simp [countRequests, sleepThenRequest]
    | next =>
      have h := ih (i + 1)
      refine ⟨?_, ?_⟩
      · simpa [countRequests] using Nat.succ_le_succ h.1
      · simpa [sleepThenRequest] using h.2

theorem pollAttemptsLoop_done {α : Type} (step : Nat → StepOut α) (msg : String)
    (r : Except String α) :
    ∀ k i fuel, k < fuel →
      (∀ j, j < k → step (i + j) = StepOut.next) →
      step (i + k) = StepOut.done r →
      (pollAttemptsLoop step msg fuel i).2 = r
      ∧ countRequests (pollAttemptsLoop step msg fuel i).1 = k + 1 := by
  intro k
  induction k with
  | zero =>
    intro i fuel hkf _ hdone
    cases fuel with
    | zero => omega
    | succ n =>
      simp only [Nat.add_zero] at hdone
      simp [pollAttemptsLoop, hdone, countRequests]
  | succ k ih =>
    intro i fuel hkf hprev hdone
    cases fuel with
    | zero => omega
    | succ n =>
      have h0 : step i = StepOut.next := by
        have := hprev 0 (by omega)
        simpa using this
      have hrec := ih (i + 1) n (by omega)
        (fun j hj => by
          have := hprev (j + 1) (by omega)
          have harith : i + (j + 1) = i + 1 + j := by omega
          rwa [harith] at this)
        (by
          have harith : i + (k + 1) = i + 1 + k := by omega
          rwa [harith] at hdone)
      simp only [pollAttemptsLoop, h0]
      exact ⟨hrec.1, by simp [countRequests, hrec.2]⟩

/-! ## Claim theorems -/

/-- Claim C1: a stored credential with an expired expiry and a present
refresh token, refreshed against a token endpoint answering ok with a new
access token and a lifetime in seconds, makes `getCredentials` return a
credential whose access token is the new one, whose refresh token is the
stored one, and whose expiry is `now + lifetime * 1000`; the token file is
written exactly once, with exactly that credential. -/
theorem getCredentials_refresh_success
    (now e life : Int) (ta : Option String) (rt tok : String)
    (ev : YouTubeUploadTool.FlowEvent)
    (hexp : e ≤ now) (hrt : rt ≠ ("")) :
    YouTubeUploadTool.getCredentials
        ⟨now, some ⟨ta, some rt, some (JNum.int e)⟩, ⟨true, some tok, some life⟩, ev⟩
      = ⟨Except.ok ⟨some tok, some rt, some (JNum.int (now + life * 1000))⟩, 1,
         [⟨some tok, some rt, some (JNum.int (now + life * 1000))⟩]⟩ := by
  have h1 : jsLtNum now (some (JNum.int e)) = false := by
    simp only [jsLtNum, decide_eq_false_iff_not, not_lt]
    exact hexp
  have h2 : truthyStr (some rt) = true := by
    simp [truthyStr, hrt]
  simp [YouTubeUploadTool.getCredentials, YouTubeUploadTool.refreshToken,
    h1, h2, jsExpiry]

/-- Witness for C1 at the spec's end-to-end scenario: stored
`{accessToken:"A", refreshToken:"R", expiry: now-1000}` with `now` =
1000000 and a refresh endpoint returning `{access_token:"B",
expires_in:3600}` yield `{accessToken:"B", refreshToken:"R", expiry:
now+3600000}`, and the store holds exactly that value. -/
theorem getCredentials_refresh_success_instance :
    YouTubeUploadTool.getCredentials
        ⟨1000000, some ⟨some ("A"), some ("R"), some (JNum.int 999000)⟩,
         ⟨true, some ("B"), some 3600⟩, YouTubeUploadTool.FlowEvent.deadline⟩
      = ⟨Except.ok ⟨some ("B"), some ("R"), some (JNum.int 4600000)⟩, 1,
         [⟨some ("B"), some ("R"), some (JNum.int 4600000)⟩]⟩ := by
  have h := getCredentials_refresh_success 1000000 999000 3600 (some ("A"))
    ("R") ("B") YouTubeUploadTool.FlowEvent.deadline (by omega) (by decide)
  norm_num at h
  exact h

/-- Claim C2 (amended): the as-is cache hit needs a truthy stored access
token AND a truthy stored expiry that lies in the future; then
`getCredentials` returns the stored credential unchanged with zero network
calls and zero writes.  (A credential with `expiry` absent is NOT returned
as-is: see the counterexample.) -/
theorem getCredentials_cache_hit
    (env : YouTubeUploadTool.CredEnv) (td : TokenData)
    (hfile : env.tokenFile = some td)
    (hat : truthyStr td.access_token = true)
    (hex : truthyJNum td.expiry = true)
    (hlt : jsLtNum env.now td.expiry = true) :
    YouTubeUploadTool.getCredentials env = ⟨Except.ok td, 0, []⟩ := by
  simp [YouTubeUploadTool.getCredentials, hfile, hat, hex, hlt]

/-- Witness for the amended C2: a stored credential with a future expiry is
returned as-is, with zero network calls and zero writes. -/
theorem getCredentials_cache_hit_instance :
    YouTubeUploadTool.getCredentials
        ⟨0, some ⟨some ("A"), some ("R"), some (JNum.int 10)⟩, ⟨true, none, none⟩,
         YouTubeUploadTool.FlowEvent.deadline⟩
      = ⟨Except.ok ⟨some ("A"), some ("R"), some (JNum.int 10)⟩, 0, []⟩ :=
  getCredentials_cache_hit _ _ rfl (by decide) (by decide) (by decide)

/-- Counterexample to C2 as stated: a stored credential with an ABSENT
expiry (and a present access and refresh token) is not returned as-is —
the code's truthiness check `tokenData.expiry &&` fails, so it takes the
refresh path: one network call, one store write, and a different
credential returned. -/
theorem getCredentials_absent_expiry_not_returned_as_is :
    (YouTubeUploadTool.getCredentials
        ⟨0, some ⟨some ("A"), some ("R"), none⟩, ⟨true, some ("B"), some 3600⟩,
         YouTubeUploadTool.FlowEvent.deadline⟩).networkCalls = 1
    ∧ (YouTubeUploadTool.getCredentials
        ⟨0, some ⟨some ("A"), some ("R"), none⟩, ⟨true, some ("B"), some 3600⟩,
         YouTubeUploadTool.FlowEvent.deadline⟩).writes
      = [⟨some ("B"), some ("R"), some (JNum.int 3600000)⟩]
    ∧ (YouTubeUploadTool.getCredentials
        ⟨0, some ⟨some ("A"), some ("R"), none⟩, ⟨true, some ("B"), some 3600⟩,
         YouTubeUploadTool.FlowEvent.deadline⟩).result
      = Except.ok ⟨some ("B"), some ("R"), some (JNum.int 3600000)⟩
    ∧ (⟨some ("B"), some ("R"), some (JNum.int 3600000)⟩ : TokenData)
      ≠ ⟨some ("A"), some ("R"), none⟩ := by
  exact ⟨rfl, rfl, rfl, by decide⟩

/-- Counterexample to C4 as stated: an HTTP-ok token response WITHOUT an
access token does not fail — `refreshToken` returns a credential whose
`access_token` is absent. -/
theorem refreshToken_ok_without_access_token :
    YouTubeUploadTool.refreshToken 0 ⟨true, none, some 3600⟩ ("R")
      = Except.ok ⟨none, some ("R"), some (JNum.int 3600000)⟩ := by
  norm_num [YouTubeUploadTool.refreshToken, jsExpiry]

/-- Claim C4 (amended): `refreshToken` fails exactly when the HTTP status
is not ok (with the error `Token refresh failed`); the response body is
never checked for an access token — on an ok status it returns a
credential mirroring the body's `access_token` field (possibly absent),
keeping the input refresh token. -/
theorem refreshToken_fails_iff_http_not_ok
    (now : Int) (resp : RefreshResp) (rt : String) :
    ((∃ m, YouTubeUploadTool.refreshToken now resp rt = Except.error m)
        ↔ resp.ok = false)
    ∧ (∀ c, YouTubeUploadTool.refreshToken now resp rt = Except.ok c →
        c.access_token = resp.access_token ∧ c.refresh_token = some rt
        ∧ c.expiry = some (jsExpiry now resp.expires_in)) := by
  constructor
  · cases hok : resp.ok <;> simp [YouTubeUploadTool.refreshToken, hok]
  · intro c hc
    cases hok : resp.ok with
    | false => simp [YouTubeUploadTool.refreshToken, hok] at hc
    | true =>
      simp [YouTubeUploadTool.refreshToken, hok] at hc
      simp [← hc]

/-- Claim C3 (amended): when the primary video upload succeeds and the
thumbnail-set request fails, `execute` does not raise: it returns the
`{videoId, url, privacyStatus}` object with the primary identifier
present, and the thumbnail failure is reported only as a console warning —
the returned object carries no warning field. -/
theorem upload_thumbnail_failure_nonfatal
    (input : YouTubeUploadTool.UploadInput) (env : YouTubeUploadTool.UploadEnv)
    (c : TokenData)
    (hv : env.videoExists = true)
    (hcred : (YouTubeUploadTool.getCredentials env.credEnv).result = Except.ok c)
    (hup : env.uploadOk = true)
    (hdl : (YouTubeUploadTool.strStartsWith input.thumbnailFile ("http://")
        || YouTubeUploadTool.strStartsWith input.thumbnailFile ("https://")) = true →
        env.thumbDlOk = true)
    (hloc : (YouTubeUploadTool.strStartsWith input.thumbnailFile ("http://")
        || YouTubeUploadTool.strStartsWith input.thumbnailFile ("https://")) = false →
        env.thumbExists = true)
    (hts : env.thumbSetOk = false) :
    YouTubeUploadTool.execute input env
      = (Except.ok ⟨env.uploadId, ("https://www.youtube.com/watch?v=") ++ env.uploadId,
          env.uploadPrivacy, none⟩,
         [YouTubeUploadTool.UploadLog.thumbFailWarning env.thumbSetStatus]) := by
  unfold YouTubeUploadTool.execute
  cases hurl : (YouTubeUploadTool.strStartsWith input.thumbnailFile ("http://")
      || YouTubeUploadTool.strStartsWith input.thumbnailFile ("https://")) with
  | false => simp [hv, hurl, hloc hurl, hcred, hup, hts]
  | true => simp [hv, hurl, hdl hurl, hcred, hup, hts]

/-- Witness for the amended C3: local thumbnail, successful upload of
video id `vid1`, failed thumbnail set (HTTP 400) — the call returns the
id and URL with no warning field, and logs the warning. -/
theorem upload_thumbnail_failure_nonfatal_instance :
    YouTubeUploadTool.execute
        ⟨("v.mp4"), ("t"), none, ("thumb.jpg"), none⟩
        ⟨true, true,
         ⟨0, some ⟨some ("A"), some ("R"), some (JNum.int 10)⟩, ⟨true, none, none⟩,
          YouTubeUploadTool.FlowEvent.deadline⟩,
         true, 200, (""), ("vid1"), ("public"), false, 0, false, 400⟩
      = (Except.ok ⟨("vid1"), ("https://www.youtube.com/watch?v=vid1"), ("public"), none⟩,
         [YouTubeUploadTool.UploadLog.thumbFailWarning 400]) :=
  upload_thumbnail_failure_nonfatal _ _
    ⟨some ("A"), some ("R"), some (JNum.int 10)⟩
    rfl rfl rfl (by decide) (by decide) rfl

/-- Counterexample to C3 as stated: at the same concrete input the result
object's warning is `none` — the thumbnail failure populates no warning in
the returned value (it is only console-logged), while the claim demands a
populated warning in the result. -/
theorem upload_thumbnail_failure_result_lacks_warning :
    (YouTubeUploadTool.execute
        ⟨("v.mp4"), ("t"), none, ("thumb.jpg"), none⟩
        ⟨true, true,
         ⟨0, some ⟨some ("A"), some ("R"), some (JNum.int 10)⟩, ⟨true, none, none⟩,
          YouTubeUploadTool.FlowEvent.deadline⟩,
         true, 200, (""), ("vid1"), ("public"), false, 0, false, 400⟩).1
      = Except.ok ⟨("vid1"), ("https://www.youtube.com/watch?v=vid1"), ("public"), none⟩
    ∧ (⟨("vid1"), ("https://www.youtube.com/watch?v=vid1"), ("public"), none⟩ :
        YouTubeUploadTool.UploadResult).warning = none := ⟨rfl, rfl⟩

/-- Claim C8: in the default environment (`OAUTH_REDIRECT_URL` unset) the
flow prints the authorization URL (embedding a redirect URI whose port is
3001) BEFORE starting the listener, and the listener binds fixed port
8080, not the redirect URI's port — both halves of the claim fail on the
code. -/
theorem doOAuthFlow_url_printed_before_listen_and_port_mismatch :
    YouTubeUploadTool.doOAuthFlowActions none
      = [YouTubeUploadTool.FlowAction.printUrl ("http://localhost:3001/oauth2callback"),
         YouTubeUploadTool.FlowAction.listen 8080]
    ∧ YouTubeUploadTool.uriPort (YouTubeUploadTool.oauthRedirectUri none) = some 3001
    ∧ (8080 : Nat) ≠ 3001 := by
  refine ⟨rfl, ?_, by decide⟩
  decide

/-- Claim C9: `doOAuthFlow` closes the local listener on every exit path —
successful callback, callback without a code, token-exchange error, and
deadline expiry — and the deadline path fails with the timeout error; the
guarding delay is 300 seconds. -/
theorem doOAuthFlow_listener_closed_on_every_exit
    (now : Int) (ev : YouTubeUploadTool.FlowEvent) :
    (YouTubeUploadTool.doOAuthFlow now ev).listenerClosed = true
    ∧ (ev = YouTubeUploadTool.FlowEvent.deadline →
        (YouTubeUploadTool.doOAuthFlow now ev).result = Except.error ("Timeout"))
    ∧ YouTubeUploadTool.OAUTH_DEADLINE_MS = 300 * 1000 := by
  refine ⟨?_, ?_, rfl⟩
  · cases ev with
    | deadline => rfl
    | callback code exchange =>
      cases hcode : truthyStr code with
      | false => simp [YouTubeUploadTool.doOAuthFlow, hcode]
      | true =>
        cases exchange with
        | error m => simp [YouTubeUploadTool.doOAuthFlow, hcode]
        | ok tokens =>
          cases herr : truthyStr tokens.error <;>
            simp [YouTubeUploadTool.doOAuthFlow, hcode, herr]
  · intro h
    subst h
    rfl

/-- Claim C10: `execute` of the image generator throws exactly when the
API key is not set; once past that check, every failure of the try body
(submission HTTP error, missing task id, task failed,
completed-without-result, polling timeout — all the `tryBody` error
cases) is caught and converted to `{imageUrl: "", success: false,
message: "Failed: " + m}`; no exception propagates. -/
theorem imageGen_execute_catches_everything (env : ImageGeneratorTool.GenEnv) :
    (truthyStr env.apiKey = false →
        ImageGeneratorTool.execute env
          = Except.error ("FREEPIK_API_KEY not set in environment variables"))
    ∧ (truthyStr env.apiKey = true →
        (∃ r, ImageGeneratorTool.execute env = Except.ok r)
        ∧ ∀ m, ImageGeneratorTool.tryBody env = Except.error m →
            ImageGeneratorTool.execute env
              = Except.ok ⟨(""), false, ("Failed: ") ++ m⟩) := by
  refine ⟨fun h => by simp [ImageGeneratorTool.execute, h], fun h => ⟨?_, ?_⟩⟩
  · cases hb : ImageGeneratorTool.tryBody env with
    | ok r => exact ⟨r, by simp [ImageGeneratorTool.execute, h, hb]⟩
    | error m =>
      exact ⟨⟨(""), false, ("Failed: ") ++ m⟩,
        by simp [ImageGeneratorTool.execute, h, hb]⟩
  · intro m hm
    simp [ImageGeneratorTool.execute, h, hm]

theorem pollStep_failed_status (d : ImageGeneratorTool.PollData)
    (h : ImageGeneratorTool.statusOf d = ("FAILED")
      ∨ ImageGeneratorTool.statusOf d = ("ERROR")) :
    ImageGeneratorTool.pollStep (ImageGeneratorTool.PollAttempt.response true d)
      = StepOut.done (Except.error (("Task failed: ") ++ d.raw)) := by
  have hne : ¬(ImageGeneratorTool.statusOf d = ("COMPLETED")
      ∨ ImageGeneratorTool.statusOf d = ("SUCCESS")) := by
    rcases h with h | h <;> simp [h]
  simp [ImageGeneratorTool.pollStep, hne, h, fatal_taskFailed]

theorem pollStep_completed_noimage (d : ImageGeneratorTool.PollData)
    (hst : ImageGeneratorTool.statusOf d = ("COMPLETED")
      ∨ ImageGeneratorTool.statusOf d = ("SUCCESS"))
    (hu : truthyStr (ImageGeneratorTool.extractImageUrl d) = false) :
    ImageGeneratorTool.pollStep (ImageGeneratorTool.PollAttempt.response true d)
      = StepOut.done (Except.error
          (("Task completed but no image found. Response: ") ++ d.raw)) := by
  simp [ImageGeneratorTool.pollStep, hst, hu, fatal_noImageFound]

theorem thumbStep_failed_status (d : ThumbnailGeneratorTool.ThumbData)
    (h : ThumbnailGeneratorTool.statusOf d = ("FAILED")
      ∨ ThumbnailGeneratorTool.statusOf d = ("ERROR")) :
    ThumbnailGeneratorTool.thumbStep (ThumbnailGeneratorTool.ThumbAttempt.response true d)
      = StepOut.done (Except.error (("Task failed: ") ++ d.raw)) := by
  have hne : ¬(ThumbnailGeneratorTool.statusOf d = ("COMPLETED")
      ∨ ThumbnailGeneratorTool.statusOf d = ("SUCCESS")) := by
    rcases h with h | h <;> simp [h]
  simp [ThumbnailGeneratorTool.thumbStep, hne, h]

theorem thumbStep_completed_noimage (d : ThumbnailGeneratorTool.ThumbData)
    (hst : ThumbnailGeneratorTool.statusOf d = ("COMPLETED")
      ∨ ThumbnailGeneratorTool.statusOf d = ("SUCCESS"))
    (hg : ThumbnailGeneratorTool.extractGenerated d = none) :
    ThumbnailGeneratorTool.thumbStep (ThumbnailGeneratorTool.ThumbAttempt.response true d)
      = StepOut.done (Except.error
          (("Task completed but no image found. Response: ") ++ d.raw)) := by
  simp [ThumbnailGeneratorTool.thumbStep, hst, hg]

/-- Claim C5: both polling loops with `maxAttempts = N` issue at most N
status requests, and the event trace is a sequence of
(sleep `pollIntervalMs`, request) pairs — every request, the first
included, is immediately preceded by a sleep of the polling interval. -/
theorem poll_budget_and_sleep_before_every_request
    (envI : Nat → ImageGeneratorTool.PollAttempt)
    (envT : Nat → ThumbnailGeneratorTool.ThumbAttempt) (N : Nat) :
    (countRequests (ImageGeneratorTool.pollForImage envI N).1 ≤ N
      ∧ sleepThenRequest (ImageGeneratorTool.pollForImage envI N).1 = true)
    ∧ (countRequests (ThumbnailGeneratorTool.pollLoop envT N).1 ≤ N
      ∧ sleepThenRequest (ThumbnailGeneratorTool.pollLoop envT N).1 = true) :=
  ⟨pollAttemptsLoop_budget _ _ N 0, pollAttemptsLoop_budget _ _ N 0⟩

/-- Claim C6: when attempt `i` (after `i` non-terminal attempts) meets an
ok status response reporting FAILED/ERROR, both pollers stop at once with
the `Task failed: ` error carrying the provider payload, having issued
exactly `i + 1` requests of the budget. -/
theorem poll_failed_status_terminates_immediately
    (envI : Nat → ImageGeneratorTool.PollAttempt) (dI : ImageGeneratorTool.PollData)
    (i N : Nat)
    (envT : Nat → ThumbnailGeneratorTool.ThumbAttempt)
    (dT : ThumbnailGeneratorTool.ThumbData) (k M : Nat)
    (hiN : i < N)
    (hprevI : ∀ j, j < i → ImageGeneratorTool.pollStep (envI j) = StepOut.next)
    (hatI : envI i = ImageGeneratorTool.PollAttempt.response true dI)
    (hstI : ImageGeneratorTool.statusOf dI = ("FAILED")
      ∨ ImageGeneratorTool.statusOf dI = ("ERROR"))
    (hkM : k < M)
    (hprevT : ∀ j, j < k → ThumbnailGeneratorTool.thumbStep (envT j) = StepOut.next)
    (hatT : envT k = ThumbnailGeneratorTool.ThumbAttempt.response true dT)
    (hstT : ThumbnailGeneratorTool.statusOf dT = ("FAILED")
      ∨ ThumbnailGeneratorTool.statusOf dT = ("ERROR")) :
    ((ImageGeneratorTool.pollForImage envI N).2
        = Except.error (("Task failed: ") ++ dI.raw)
      ∧ countRequests (ImageGeneratorTool.pollForImage envI N).1 = i + 1)
    ∧ ((ThumbnailGeneratorTool.pollLoop envT M).2
        = Except.error (("Task failed: ") ++ dT.raw)
      ∧ countRequests (ThumbnailGeneratorTool.pollLoop envT M).1 = k + 1) := by
  constructor
  · have hstep : ImageGeneratorTool.pollStep (envI (0 + i))
        = StepOut.done (Except.error (("Task failed: ") ++ dI.raw)) := by
      rw [Nat.zero_add, hatI]
      exact pollStep_failed_status dI hstI
    exact pollAttemptsLoop_done (fun j => ImageGeneratorTool.pollStep (envI j))
      (ImageGeneratorTool.timeoutMsg N) _ i 0 N hiN
      (fun j hj => by simpa using hprevI j hj) hstep
  · have hstep : ThumbnailGeneratorTool.thumbStep (envT (0 + k))
        = StepOut.done (Except.error (("Task failed: ") ++ dT.raw)) := by
      rw [Nat.zero_add, hatT]
      exact thumbStep_failed_status dT hstT
    exact pollAttemptsLoop_done (fun j => ThumbnailGeneratorTool.thumbStep (envT j))
      (ImageGeneratorTool.timeoutMsg M) _ k 0 M hkM
      (fun j hj => by simpa using hprevT j hj) hstep

/-- Witness for C6: the very first status response reports FAILED — both
pollers stop with the task-failed error after exactly one request. -/
theorem poll_failed_status_terminates_immediately_instance :
    ((ImageGeneratorTool.pollForImage
        (fun _ => ImageGeneratorTool.PollAttempt.response true
          ⟨none, some ("FAILED"), none, none, none, none, none, none, ("boom")⟩) 20).2
      = Except.error (("Task failed: boom"))
    ∧ countRequests (ImageGeneratorTool.pollForImage
        (fun _ => ImageGeneratorTool.PollAttempt.response true
          ⟨none, some ("FAILED"), none, none, none, none, none, none, ("boom")⟩) 20).1 = 1)
    ∧ ((ThumbnailGeneratorTool.pollLoop
        (fun _ => ThumbnailGeneratorTool.ThumbAttempt.response true
          ⟨none, some ("FAILED"), none, none, ("boomT")⟩) 20).2
      = Except.error (("Task failed: boomT"))
    ∧ countRequests (ThumbnailGeneratorTool.pollLoop
        (fun _ => ThumbnailGeneratorTool.ThumbAttempt.response true
          ⟨none, some ("FAILED"), none, none, ("boomT")⟩) 20).1 = 1) :=
  poll_failed_status_terminates_immediately
    (fun _ => ImageGeneratorTool.PollAttempt.response true
      ⟨none, some ("FAILED"), none, none, none, none, none, none, ("boom")⟩)
    ⟨none, some ("FAILED"), none, none, none, none, none, none, ("boom")⟩ 0 20
    (fun _ => ThumbnailGeneratorTool.ThumbAttempt.response true
      ⟨none, some ("FAILED"), none, none, ("boomT")⟩)
    ⟨none, some ("FAILED"), none, none, ("boomT")⟩ 0 20
    (by omega) (fun j hj => absurd hj (Nat.not_lt_zero j)) rfl (Or.inl rfl)
    (by omega) (fun j hj => absurd hj (Nat.not_lt_zero j)) rfl (Or.inl rfl)

/-- Claim C7: when attempt `i` (after `i` non-terminal attempts) meets an
ok COMPLETED/SUCCESS response from which none of the probed shapes yields
a (truthy) payload, both pollers stop at once with the
`Task completed but no image found` error — no retry, no empty success —
having issued exactly `i + 1` requests. -/
theorem poll_completed_without_result_is_fatal
    (envI : Nat → ImageGeneratorTool.PollAttempt) (dI : ImageGeneratorTool.PollData)
    (i N : Nat)
    (envT : Nat → ThumbnailGeneratorTool.ThumbAttempt)
    (dT : ThumbnailGeneratorTool.ThumbData) (k M : Nat)
    (hiN : i < N)
    (hprevI : ∀ j, j < i → ImageGeneratorTool.pollStep (envI j) = StepOut.next)
    (hatI : envI i = ImageGeneratorTool.PollAttempt.response true dI)
    (hstI : ImageGeneratorTool.statusOf dI = ("COMPLETED")
      ∨ ImageGeneratorTool.statusOf dI = ("SUCCESS"))
    (huI : truthyStr (ImageGeneratorTool.extractImageUrl dI) = false)
    (hkM : k < M)
    (hprevT : ∀ j, j < k → ThumbnailGeneratorTool.thumbStep (envT j) = StepOut.next)
    (hatT : envT k = ThumbnailGeneratorTool.ThumbAttempt.response true dT)
    (hstT : ThumbnailGeneratorTool.statusOf dT = ("COMPLETED")
      ∨ ThumbnailGeneratorTool.statusOf dT = ("SUCCESS"))
    (hgT : ThumbnailGeneratorTool.extractGenerated dT = none) :
    ((ImageGeneratorTool.pollForImage envI N).2
        = Except.error (("Task completed but no image found. Response: ") ++ dI.raw)
      ∧ countRequests (ImageGeneratorTool.pollForImage envI N).1 = i + 1)
    ∧ ((ThumbnailGeneratorTool.pollLoop envT M).2
        = Except.error (("Task completed but no image found. Response: ") ++ dT.raw)
      ∧ countRequests (ThumbnailGeneratorTool.pollLoop envT M).1 = k + 1) := by
  constructor
  · have hstep : ImageGeneratorTool.pollStep (envI (0 + i))
        = StepOut.done (Except.error
            (("Task completed but no image found. Response: ") ++ dI.raw)) := by
      rw [Nat.zero_add, hatI]
      exact pollStep_completed_noimage dI hstI huI
    exact pollAttemptsLoop_done (fun j => ImageGeneratorTool.pollStep (envI j))
      (ImageGeneratorTool.timeoutMsg N) _ i 0 N hiN
      (fun j hj => by simpa using hprevI j hj) hstep
  · have hstep : ThumbnailGeneratorTool.thumbStep (envT (0 + k))
        = StepOut.done (Except.error
            (("Task completed but no image found. Response: ") ++ dT.raw)) := by
      rw [Nat.zero_add, hatT]
      exact thumbStep_completed_noimage dT hstT hgT
    exact pollAttemptsLoop_done (fun j => ThumbnailGeneratorTool.thumbStep (envT j))
      (ImageGeneratorTool.timeoutMsg M) _ k 0 M hkM
      (fun j hj => by simpa using hprevT j hj) hstep

/-- Witness for C7: the first status response reports COMPLETED with no
payload at any probed shape — both pollers stop with the no-image error
after exactly one request. -/
theorem poll_completed_without_result_is_fatal_instance :
    ((ImageGeneratorTool.pollForImage
        (fun _ => ImageGeneratorTool.PollAttempt.response true
          ⟨none, some ("COMPLETED"), none, none, none, none, none, none, ("empty")⟩) 20).2
      = Except.error (("Task completed but no image found. Response: empty"))
    ∧ countRequests (ImageGeneratorTool.pollForImage
        (fun _ => ImageGeneratorTool.PollAttempt.response true
          ⟨none, some ("COMPLETED"), none, none, none, none, none, none, ("empty")⟩) 20).1 = 1)
    ∧ ((ThumbnailGeneratorTool.pollLoop
        (fun _ => ThumbnailGeneratorTool.ThumbAttempt.response true
          ⟨none, some ("COMPLETED"), none, none, ("emptyT")⟩) 20).2
      = Except.error (("Task completed but no image found. Response: emptyT"))
    ∧ countRequests (ThumbnailGeneratorTool.pollLoop
        (fun _ => ThumbnailGeneratorTool.ThumbAttempt.response true
          ⟨none, some ("COMPLETED"), none, none, ("emptyT")⟩) 20).1 = 1) :=
  poll_completed_without_result_is_fatal
    (fun _ => ImageGeneratorTool.PollAttempt.response true
      ⟨none, some ("COMPLETED"), none, none, none, none, none, none, ("empty")⟩)
    ⟨none, some ("COMPLETED"), none, none, none, none, none, none, ("empty")⟩ 0 20
    (fun _ => ThumbnailGeneratorTool.ThumbAttempt.response true
      ⟨none, some ("COMPLETED"), none, none, ("emptyT")⟩)
    ⟨none, some ("COMPLETED"), none, none, ("emptyT")⟩ 0 20
    (by omega) (fun j hj => absurd hj (Nat.not_lt_zero j)) rfl (Or.inl rfl) rfl
    (by omega) (fun j hj => absurd hj (Nat.not_lt_zero j)) rfl (Or.inl rfl) rfl
